import Mathlib

/-!
Verification of the CellularShield AT-command driver
(src/src/CellularShieldDriver.cpp, src/src/CellularShieldDriver.h).

The serial transport is modelled as a finite list of read events: each call to
the timed byte reader consumes the head event, which is either a received byte
(a value in 0..255) or a timeout of the wait loop.  An exhausted list behaves
like a timeout.  Buffer writes performed by the transaction executor are
recorded explicitly as (index, value) pairs so that memory-safety statements
can be made about them.  Timing (millisecond clocks, delay calls) is abstracted
into the events themselves: whether a given read times out is recorded in the
event stream, and the registration poll loop counts its delay calls.
-/

namespace CellularShield

/-- Header constant LTE_SHIELD_COMMAND_MAX_LEN. -/
def LTE_SHIELD_COMMAND_MAX_LEN : Nat := 10

/-- Header constant LTE_SHIELD_REGISTER_TIMEOUT (milliseconds). -/
def LTE_SHIELD_REGISTER_TIMEOUT : Nat := 30000

/-- Header enum ResponseType. -/
inductive ResponseType where
  | DATA
  | OK
  | ERROR
  | TIMEOUT
  | UNKNOWN
  deriving DecidableEq, Repr

/-- Header enum Error. -/
inductive Error where
  | OK
  | TIMEOUT
  | INVALID_RESPONSE
  | UNEXPECTED_DATA
  | UNEXPECTED_OK
  | LTE_ERROR
  | LTE_NOT_FOUND
  | LTE_BAD_CONFIG
  | LTE_AUTO_MNO_FAILED
  | LTE_REGISTRATION_FAILED
  deriving DecidableEq, Repr

/-- One interaction of m_read_serial with the transport: either a byte became
    available and was read, or the wait loop ran past the deadline. -/
inductive ReadEvt where
  | byte (b : Nat)
  | timeout
  deriving DecidableEq, Repr

/-- m_read_serial (CellularShieldDriver.cpp lines 417-427): returns the byte
    read from the transport, or the value 255 when the wait loop times out. -/
def m_read_serial : ReadEvt → Nat
  | .byte b => b
  | .timeout => 255

/-- One call of m_read_serial against the event stream: consume the head
    event; an empty stream behaves like a timeout. -/
def readSerial : List ReadEvt → Nat × List ReadEvt
  | [] => (255, [])
  | e :: rest => (m_read_serial e, rest)

/-- Echo-skip loop of m_send_command (lines 289-299): read until a newline
    (result true) or until the reader yields the 255 sentinel (result false,
    which triggers a retry of the whole transaction). -/
def skipEcho : List ReadEvt → Bool × List ReadEvt
  | [] => (false, [])
  | e :: rest =>
    let c := m_read_serial e
    if c = 10 then (true, rest)
    else if c = 255 then (false, rest)
    else skipEcho rest

/-- Inner flush loop of the OK branch of m_check_response (lines 384-388):
    drain the line until a newline (true) or a 255 sentinel (false). -/
def flushToNewline : List ReadEvt → Bool × List ReadEvt
  | [] => (false, [])
  | e :: rest =>
    let k := m_read_serial e
    if k = 255 then (false, rest)
    else if k = 10 then (true, rest)
    else flushToNewline rest

/-- m_check_response (lines 371-405): skip newline, carriage-return and space
    bytes, then classify the first remaining byte.  43, 79, 69 are the codes
    of the characters plus, O and E. -/
def m_check_response : List ReadEvt → ResponseType × List ReadEvt
  | [] => (.TIMEOUT, [])
  | e :: rest =>
    let c := m_read_serial e
    if c = 255 then (.TIMEOUT, rest)
    else if c = 10 ∨ c = 13 ∨ c = 32 then m_check_response rest
    else if c = 43 then (.DATA, rest)
    else if c = 79 then
      match flushToNewline rest with
      | (true, r) => (.OK, r)
      | (false, r) => (.TIMEOUT, r)
    else if c = 69 then (.ERROR, rest)
    else (.UNKNOWN, rest)

/-- m_response_to_error (lines 407-415). -/
def m_response_to_error : ResponseType → Error
  | .OK => .UNEXPECTED_OK
  | .DATA => .UNEXPECTED_DATA
  | .ERROR => .LTE_ERROR
  | .TIMEOUT => .TIMEOUT
  | .UNKNOWN => .UNEXPECTED_DATA

/-- C strnlen over a byte list: length up to the first NUL, capped at n. -/
def strnlen : List Nat → Nat → Nat
  | _, 0 => 0
  | [], _ + 1 => 0
  | c :: rest, n + 1 => if c = 0 then 0 else strnlen rest n + 1

/-- The characters of the command text that the name-check loop of
    m_send_command (lines 312-332) compares against the reply: indices 1
    through strnlen(command, LTE_SHIELD_COMMAND_MAX_LEN) - 1, stopping at the
    first 61 or 63 (the characters equal-sign and question-mark). -/
def nameToCheck (command : List Nat) : List Nat :=
  ((command.take (strnlen command LTE_SHIELD_COMMAND_MAX_LEN)).drop 1).takeWhile
    (fun ch => !(ch == 61 || ch == 63))

/-- Name-check loop of m_send_command (lines 312-332), phrased over the list
    of command characters still to verify: each is compared with one byte from
    the reader; a 255 sentinel aborts with TIMEOUT, a mismatch aborts with
    INVALID_RESPONSE. -/
def checkNameList : List Nat → List ReadEvt → Option Error × List ReadEvt
  | [], s => (none, s)
  | ch :: seg, s =>
    let p := readSerial s
    if p.1 = 255 then (some .TIMEOUT, p.2)
    else if ch ≠ p.1 then (some .INVALID_RESPONSE, p.2)
    else checkNameList seg p.2

/-- The full name check of m_send_command on a command text. -/
def checkName (command : List Nat) (s : List ReadEvt) : Option Error × List ReadEvt :=
  checkNameList (nameToCheck command) s

/-- Separator skip of m_send_command (line 335): two reads, TIMEOUT if either
    yields the 255 sentinel (short-circuit: the second read happens only when
    the first succeeded). -/
def skipSeparator (s : List ReadEvt) : Option Error × List ReadEvt :=
  let p := readSerial s
  if p.1 = 255 then (some Error.TIMEOUT, p.2)
  else
    let q := readSerial p.2
    if q.1 = 255 then (some Error.TIMEOUT, q.2) else (none, q.2)

/-- Flush loop of the truncation branch (line 348): consume bytes that are
    immediately available, up to and including a newline; a pending timeout
    event means no byte is available, so draining stops there. -/
def drainAvail : List ReadEvt → List ReadEvt
  | [] => []
  | .timeout :: rest => .timeout :: rest
  | .byte b :: rest => if b = 10 then rest else drainAvail rest

/-- Outcome of the response-copy loop of m_send_command (lines 337-356). -/
structure CopyOut where
  err : Option Error
  writes : List (Nat × Nat)
  term : Option Nat
  warned : Bool
  rest : List ReadEvt
  deriving DecidableEq, Repr

/-- Response-copy loop of m_send_command (lines 337-356): copy bytes into the
    caller buffer until a newline or carriage-return, returning TIMEOUT on the
    255 sentinel; when the running index reaches dest_max - 1 the reply is
    clipped with a warning and the available remainder of the line is drained.
    writes records the payload stores response[i] = c, term the index of the
    final NUL terminator store (absent when the loop exits by TIMEOUT). -/
def copyResponse (dest_max : Nat) : Nat → List ReadEvt → CopyOut
  | _, [] => ⟨some .TIMEOUT, [], none, false, []⟩
  | i, e :: rest =>
    let c := m_read_serial e
    if c = 255 then ⟨some .TIMEOUT, [], none, false, rest⟩
    else if c = 10 ∨ c = 13 then ⟨none, [], some i, false, rest⟩
    else if dest_max - 1 ≤ i then ⟨none, [], some i, true, drainAvail rest⟩
    else
      let out := copyResponse dest_max (i + 1) rest
      ⟨out.err, (i, c) :: out.writes, out.term, out.warned, out.rest⟩

/-- Outcome of one iteration of the retry loop of m_send_command: either the
    echo phase hit the 255 sentinel (retry: continue with the next attempt) or
    the transaction finished with the given error. -/
inductive AttemptOut where
  | retry
  | done (e : Error)
  deriving DecidableEq, Repr

/-- Result of m_send_command over the event-stream model: the returned Error,
    the payload stores into the caller buffer, the indices of NUL-terminator
    stores, whether the clipping warning was emitted, how many times the
    command line was transmitted, and the unconsumed remainder of the event
    stream. -/
structure SendOut where
  err : Error
  writes : List (Nat × Nat)
  terms : List Nat
  warned : Bool
  sends : Nat
  rest : List ReadEvt
  deriving DecidableEq, Repr

/-- Body of one iteration of the retry loop of m_send_command (lines 278-366):
    transmit, skip the echo line, then (when a response buffer was supplied
    and dest_max is positive) classify the data reply, verify the command
    name, skip the two separator bytes, copy the payload, and finally check
    the OK terminator.  hasBuf models response != nullptr. -/
def runAttempt (command : List Nat) (hasBuf : Bool) (dest_max : Nat) (s : List ReadEvt) :
    AttemptOut × List (Nat × Nat) × List Nat × Bool × List ReadEvt :=
  match skipEcho s with
  | (false, s1) => (.retry, [], [], false, s1)
  | (true, s1) =>
    if hasBuf = true ∧ 0 < dest_max then
      match m_check_response s1 with
      | (.DATA, s2) =>
        match checkName command s2 with
        | (some e, s3) => (.done e, [], [], false, s3)
        | (none, s3) =>
          match skipSeparator s3 with
          | (some e, s4) => (.done e, [], [], false, s4)
          | (none, s4) =>
            let co := copyResponse dest_max 0 s4
            match co.err with
            | some e => (.done e, co.writes, co.term.toList, co.warned, co.rest)
            | none =>
              match m_check_response co.rest with
              | (.OK, s5) => (.done .OK, co.writes, co.term.toList, co.warned, s5)
              | (r, s5) => (.done (m_response_to_error r), co.writes, co.term.toList, co.warned, s5)
      | (r, s2) => (.done (m_response_to_error r), [], [], false, s2)
    else
      match m_check_response s1 with
      | (.OK, s2) => (.done .OK, [], [], false, s2)
      | (r, s2) => (.done (m_response_to_error r), [], [], false, s2)

/-- m_send_command (lines 261-369): the retry loop, recursing on the number
    of tries left.  Exhausting the tries returns TIMEOUT; a retry outcome of
    an attempt moves to the next attempt; a done outcome is returned at once.
    Each executed attempt transmits the command line once (counted in
    sends). -/
def m_send_command (command : List Nat) (hasBuf : Bool) (dest_max : Nat) :
    Nat → List ReadEvt → SendOut
  | 0, s => ⟨.TIMEOUT, [], [], false, 0, s⟩
  | n + 1, s =>
    match runAttempt command hasBuf dest_max s with
    | (.retry, ws, ts, w, s1) =>
      let out := m_send_command command hasBuf dest_max n s1
      ⟨out.err, ws ++ out.writes, ts ++ out.terms, w || out.warned, out.sends + 1, out.rest⟩
    | (.done e, ws, ts, w, s1) => ⟨e, ws, ts, w, 1, s1⟩

/-- Number of registration polls permitted by m_verify_network (line 243):
    LTE_SHIELD_REGISTER_TIMEOUT / 500. -/
def pollLimit : Nat := LTE_SHIELD_REGISTER_TIMEOUT / 500

/-- Registration poll loop of m_verify_network (lines 234-245).  Each poll is
    an oracle giving the Error of the +CREG query and, on success, the status
    character res[2].  The loop breaks when the status is 49 or 53 (the
    characters for HOME_NETWORK and ROAMING), or when the incremented counter
    reaches pollLimit; otherwise it delays 500 ms and polls again.  rem is the
    number of further polls the counter still allows (pollLimit - 1 - count),
    so the rem = 0 case is the iteration in which ++count reaches the limit;
    the result carries the loop exit (inl: a query failed with that error,
    inr: the loop broke with this status) and the number of delay calls. -/
def regPollLoopGo (polls : Nat → Error × Nat) : Nat → Nat → Nat → (Error ⊕ Nat) × Nat
  | 0, idx, delays =>
    let p := polls idx
    if p.1 ≠ Error.OK then (Sum.inl p.1, delays)
    else (Sum.inr p.2, delays)
  | rem + 1, idx, delays =>
    let p := polls idx
    if p.1 ≠ Error.OK then (Sum.inl p.1, delays)
    else if p.2 = 49 ∨ p.2 = 53 then (Sum.inr p.2, delays)
    else regPollLoopGo polls rem (idx + 1) (delays + 1)

/-- The registration check of m_verify_network (lines 227-255): run the poll
    loop from count = 0, then return OK when the final status is HOME_NETWORK
    or ROAMING and LTE_REGISTRATION_FAILED otherwise.  The second component
    counts the 500 ms delay calls executed. -/
def m_verify_registration (polls : Nat → Error × Nat) : Error × Nat :=
  match regPollLoopGo polls (pollLimit - 1) 0 0 with
  | (Sum.inl e, d) => (e, d)
  | (Sum.inr st, d) =>
    if st = 49 ∨ st = 53 then (.OK, d) else (.LTE_REGISTRATION_FAILED, d)

/-- m_verify_network (lines 213-258): first the MNO profile check (mnoErr and
    mnoNum are the Error and the atoi value of the +UMNOPROF query; MNO code 0
    is MNOType::ERROR), then the registration check. -/
def m_verify_network (mno : Int) (mnoErr : Error) (mnoNum : Int)
    (polls : Nat → Error × Nat) : Error × Nat :=
  if mnoErr ≠ Error.OK then (mnoErr, 0)
  else if mnoNum = 0 ∨ mnoNum ≠ mno then (.LTE_BAD_CONFIG, 0)
  else m_verify_registration polls

/-- Outcomes of the sub-steps that the control flow of begin (lines 39-81)
    branches on: the power-detect pin read, and the Error results of the
    echo probe, m_wait_power_on, the connectivity test, m_reset,
    the two m_verify_network calls and m_configure_network. -/
structure BeginEnv where
  powerDetectHigh : Bool
  echoProbe : Error
  waitPowerOn : Error
  echoTest : Error
  resetRes : Error
  verify1 : Error
  configureNet : Error
  verify2 : Error
  deriving DecidableEq, Repr

/-- The poll oracle of the spec example: status SEARCHING (character 50) on
    the first two polls, then HOME_NETWORK (character 49), every query
    succeeding. -/
def pollsSearchingTwice : Nat → Error × Nat :=
  fun k => if k < 2 then (Error.OK, 50) else (Error.OK, 49)

/-- Tail of begin (lines 69-80), after the power-on / reset branch: verify the
    network, and only in the LTE_BAD_CONFIG case reconfigure and re-verify;
    every other first-verification outcome returns false. -/
def beginTail (env : BeginEnv) : Bool :=
  if env.verify1 = Error.LTE_BAD_CONFIG then
    if env.configureNet ≠ Error.OK then false
    else if env.verify2 ≠ Error.OK then false
    else true
  else false

/-- begin (lines 39-81): the bring-up routine, with the sub-step outcomes
    supplied by env. -/
def begin (env : BeginEnv) : Bool :=
  if env.powerDetectHigh = false then
    if env.echoProbe = Error.TIMEOUT then
      if env.waitPowerOn ≠ Error.OK then false
      else if env.echoTest ≠ Error.OK then false
      else beginTail env
    else false
  else
    if env.resetRes ≠ Error.OK then false
    else beginTail env

end CellularShield

namespace CellularShield

/-- An attempt whose outcome is done is returned by m_send_command at once,
    with a single transmission, whatever the number of tries remaining. -/
lemma m_send_command_succ_done (command : List Nat) (hasBuf : Bool) (dest_max n : Nat)
    (s : List ReadEvt) (e : Error) (ws : List (Nat × Nat)) (ts : List Nat) (w : Bool)
    (s1 : List ReadEvt)
    (h : runAttempt command hasBuf dest_max s = (AttemptOut.done e, ws, ts, w, s1)) :
    m_send_command command hasBuf dest_max (n + 1) s = ⟨e, ws, ts, w, 1, s1⟩ := by
  simp only [m_send_command, h]

/-- An attempt whose outcome is retry makes m_send_command continue with the
    next attempt on the remaining stream. -/
lemma m_send_command_succ_retry (command : List Nat) (hasBuf : Bool) (dest_max n : Nat)
    (s : List ReadEvt) (ws : List (Nat × Nat)) (ts : List Nat) (w : Bool)
    (s1 : List ReadEvt)
    (h : runAttempt command hasBuf dest_max s = (AttemptOut.retry, ws, ts, w, s1)) :
    m_send_command command hasBuf dest_max (n + 1) s =
      ⟨(m_send_command command hasBuf dest_max n s1).err,
       ws ++ (m_send_command command hasBuf dest_max n s1).writes,
       ts ++ (m_send_command command hasBuf dest_max n s1).terms,
       w || (m_send_command command hasBuf dest_max n s1).warned,
       (m_send_command command hasBuf dest_max n s1).sends + 1,
       (m_send_command command hasBuf dest_max n s1).rest⟩ := by
  simp only [m_send_command, h]

/-- A retry outcome happens exactly when the echo-skip phase ended in the 255
    sentinel. -/
lemma runAttempt_retry_iff_echo (command : List Nat) (hasBuf : Bool) (dest_max : Nat)
    (s : List ReadEvt) (ws : List (Nat × Nat)) (ts : List Nat) (w : Bool)
    (s1 : List ReadEvt)
    (h : runAttempt command hasBuf dest_max s = (AttemptOut.retry, ws, ts, w, s1)) :
    (skipEcho s).1 = false := by
  rcases hse : skipEcho s with ⟨b, s2⟩
  cases b
  · rfl
  · exfalso
    unfold runAttempt at h
    rw [hse] at h
    dsimp only at h
    split at h
    all_goals repeat' split at h
    all_goals simp at h

/-- On a stream of only timeout events every attempt ends in an echo-phase
    timeout; each of the n attempts transmits once, consumes one event, and
    the call ends with TIMEOUT. -/
lemma m_send_command_all_timeouts (command : List Nat) (hasBuf : Bool) (dest_max : Nat) :
    ∀ n k, m_send_command command hasBuf dest_max n (List.replicate k ReadEvt.timeout) =
      ⟨Error.TIMEOUT, [], [], false, n, List.replicate (k - n) ReadEvt.timeout⟩ := by
  intro n
  induction n with
  | zero => intro k; rfl
  | succ n ih =>
    intro k
    cases k with
    | zero =>
      rw [List.replicate, m_send_command_succ_retry command hasBuf dest_max n
        [] [] [] false [] (by rfl)]
      have h0 := ih 0
      simp only [List.replicate_zero] at h0
      rw [h0]
      simp
    | succ j =>
      rw [List.replicate, m_send_command_succ_retry command hasBuf dest_max n
        (ReadEvt.timeout :: List.replicate j ReadEvt.timeout) [] [] false
        (List.replicate j ReadEvt.timeout) (by rfl)]
      rw [ih j]
      simp [Nat.succ_sub_succ]

/-- Claim C3: m_send_command retries only when the echo-skip phase ends in the
    timeout sentinel; when every one of the tries ends that way (a stream of
    only timeout events) it returns TIMEOUT after transmitting once per try;
    and any attempt that gets past the echo phase returns its outcome at once,
    with no further transmission, whatever the number of tries remaining. -/
theorem send_command_retry_only_on_echo_timeout :
    (∀ (command : List Nat) (hasBuf : Bool) (dest_max n k : Nat),
      m_send_command command hasBuf dest_max n (List.replicate k ReadEvt.timeout) =
        ⟨Error.TIMEOUT, [], [], false, n, List.replicate (k - n) ReadEvt.timeout⟩) ∧
    (∀ (command : List Nat) (hasBuf : Bool) (dest_max n : Nat) (s : List ReadEvt)
      (e : Error) (ws : List (Nat × Nat)) (ts : List Nat) (w : Bool) (s1 : List ReadEvt),
      runAttempt command hasBuf dest_max s = (AttemptOut.done e, ws, ts, w, s1) →
      m_send_command command hasBuf dest_max (n + 1) s = ⟨e, ws, ts, w, 1, s1⟩) ∧
    (∀ (command : List Nat) (hasBuf : Bool) (dest_max : Nat) (s : List ReadEvt)
      (ws : List (Nat × Nat)) (ts : List Nat) (w : Bool) (s1 : List ReadEvt),
      runAttempt command hasBuf dest_max s = (AttemptOut.retry, ws, ts, w, s1) →
      (skipEcho s).1 = false) :=
  ⟨fun command hasBuf dest_max n k =>
      m_send_command_all_timeouts command hasBuf dest_max n k,
   fun command hasBuf dest_max n s e ws ts w s1 h =>
      m_send_command_succ_done command hasBuf dest_max n s e ws ts w s1 h,
   fun command hasBuf dest_max s ws ts w s1 h =>
      runAttempt_retry_iff_echo command hasBuf dest_max s ws ts w s1 h⟩

/-- Closed instance of send_command_retry_only_on_echo_timeout: the command E0
    (bytes 69, 48) over a dead transport with 5 tries, a completed OK
    transaction with 4 tries, and a retry outcome on an empty stream. -/
theorem send_command_retry_only_on_echo_timeout_witness :
    m_send_command [69, 48] false 0 5 (List.replicate 7 ReadEvt.timeout) =
      ⟨Error.TIMEOUT, [], [], false, 5, List.replicate 2 ReadEvt.timeout⟩ ∧
    m_send_command [69, 48] false 0 4 [ReadEvt.byte 10, ReadEvt.byte 79, ReadEvt.byte 10] =
      ⟨Error.OK, [], [], false, 1, []⟩ ∧
    (skipEcho ([] : List ReadEvt)).1 = false :=
  ⟨send_command_retry_only_on_echo_timeout.1 [69, 48] false 0 5 7,
   send_command_retry_only_on_echo_timeout.2.1 [69, 48] false 0 3
     [ReadEvt.byte 10, ReadEvt.byte 79, ReadEvt.byte 10]
     Error.OK [] [] false [] (by rfl),
   send_command_retry_only_on_echo_timeout.2.2 [69, 48] false 0 [] [] [] false []
     (by rfl)⟩

/-- Claim C1: when the first m_verify_network call of begin returns OK (the
    MNO profile matched and registration reached HOME_NETWORK or ROAMING),
    begin falls into the else-return-false branch after the LTE_BAD_CONFIG
    test and reports failure to its caller, in every surrounding
    configuration. -/
theorem begin_false_when_verify_ok (env : BeginEnv) (h : env.verify1 = Error.OK) :
    begin env = false := by
  unfold begin beginTail
  simp [h]

/-- Closed instance of begin_false_when_verify_ok: a run in which every
    sub-step, including the first network verification, succeeds. -/
theorem begin_false_when_verify_ok_witness :
    (⟨true, Error.OK, Error.OK, Error.OK, Error.OK, Error.OK, Error.OK,
        Error.OK⟩ : BeginEnv).verify1 = Error.OK ∧
    begin ⟨true, Error.OK, Error.OK, Error.OK, Error.OK, Error.OK, Error.OK,
        Error.OK⟩ = false :=
  ⟨rfl, begin_false_when_verify_ok _ rfl⟩

/-- Claim C2: the timed byte reader is meant to return either a received byte
    or a TIMEOUT sentinel disjoint from all 256 byte values.  In the code the
    sentinel is the value 255, which collides with the legitimate payload byte
    255: receiving byte 255 and timing out produce the same result (both 255),
    while for example byte 254 is still distinguishable. -/
theorem read_serial_sentinel_collides_with_byte255 :
    m_read_serial (ReadEvt.byte 255) = 255 ∧
    m_read_serial ReadEvt.timeout = 255 ∧
    m_read_serial (ReadEvt.byte 254) ≠ m_read_serial ReadEvt.timeout := by
  refine ⟨rfl, rfl, ?_⟩
  decide

/-- Claim C8: m_response_to_error maps Ok to UNEXPECTED_OK, Data to
    UNEXPECTED_DATA, Error to LTE_ERROR (the DeviceError of the spec), Timeout
    to TIMEOUT and Unknown to UNEXPECTED_DATA. -/
theorem response_to_error_mapping :
    m_response_to_error ResponseType.OK = Error.UNEXPECTED_OK ∧
    m_response_to_error ResponseType.DATA = Error.UNEXPECTED_DATA ∧
    m_response_to_error ResponseType.ERROR = Error.LTE_ERROR ∧
    m_response_to_error ResponseType.TIMEOUT = Error.TIMEOUT ∧
    m_response_to_error ResponseType.UNKNOWN = Error.UNEXPECTED_DATA :=
  ⟨rfl, rfl, rfl, rfl, rfl⟩

/-- Claim C10: m_send_command with zero tries returns TIMEOUT without any
    transaction: no command transmission, no buffer store, no event consumed
    from the stream. -/
theorem send_command_zero_tries_no_effect (command : List Nat) (hasBuf : Bool)
    (dest_max : Nat) (s : List ReadEvt) :
    m_send_command command hasBuf dest_max 0 s =
      ⟨Error.TIMEOUT, [], [], false, 0, s⟩ :=
  rfl

/-- Claim C4, counterexample: a stream whose first non-whitespace byte has
    value 255 is classified TIMEOUT, not UNKNOWN, because the received byte
    255 is indistinguishable from the reader timeout sentinel. -/
theorem check_response_byte255_not_unknown :
    m_check_response [ReadEvt.byte 255] = (ResponseType.TIMEOUT, []) ∧
    ResponseType.TIMEOUT ≠ ResponseType.UNKNOWN := by
  refine ⟨rfl, ?_⟩
  decide

/-- Claim C4, amended: m_check_response skips newline, carriage-return and
    space bytes and classifies the first remaining byte: reader timeout and
    the received byte 255 both yield TIMEOUT, byte 43 (plus) yields DATA, byte
    79 (O) yields OK after draining the rest of the line through the newline,
    byte 69 (E) yields ERROR, and every other byte below 255 yields
    UNKNOWN. -/
theorem check_response_classification (w b : Nat) (s t r : List ReadEvt)
    (hw : w = 10 ∨ w = 13 ∨ w = 32)
    (hb : b < 255)
    (hb2 : ¬(b = 10 ∨ b = 13 ∨ b = 32 ∨ b = 43 ∨ b = 79 ∨ b = 69)) :
    m_check_response (ReadEvt.byte w :: s) = m_check_response s ∧
    m_check_response (ReadEvt.timeout :: s) = (ResponseType.TIMEOUT, s) ∧
    m_check_response (ReadEvt.byte 43 :: s) = (ResponseType.DATA, s) ∧
    (flushToNewline t = (true, r) →
      m_check_response (ReadEvt.byte 79 :: t) = (ResponseType.OK, r)) ∧
    m_check_response (ReadEvt.byte 69 :: s) = (ResponseType.ERROR, s) ∧
    m_check_response (ReadEvt.byte b :: s) = (ResponseType.UNKNOWN, s) ∧
    m_check_response (ReadEvt.byte 255 :: s) = (ResponseType.TIMEOUT, s) := by
  push_neg at hb2
  obtain ⟨h10, h13, h32, h43, h79, h69⟩ := hb2
  refine ⟨?_, ?_, ?_, ?_, ?_, ?_, ?_⟩
  · simp only [m_check_response, m_read_serial]
    rcases hw with h | h | h <;> subst h <;> norm_num
  · rfl
  · rfl
  · intro hf
    simp only [m_check_response, m_read_serial]
    norm_num
    rw [hf]
  · rfl
  · have hne : b ≠ 255 := Nat.ne_of_lt hb
    simp only [m_check_response, m_read_serial]
    simp [hne, h10, h13, h32, h43, h79, h69]
  · rfl

/-- Closed instance of check_response_classification at whitespace byte 13,
    other byte 88, and a concrete O line. -/
theorem check_response_classification_witness :
    m_check_response [ReadEvt.byte 13, ReadEvt.byte 69] =
      m_check_response [ReadEvt.byte 69] ∧
    m_check_response [ReadEvt.timeout, ReadEvt.byte 69] =
      (ResponseType.TIMEOUT, [ReadEvt.byte 69]) ∧
    m_check_response [ReadEvt.byte 43, ReadEvt.byte 69] =
      (ResponseType.DATA, [ReadEvt.byte 69]) ∧
    (flushToNewline [ReadEvt.byte 75, ReadEvt.byte 10] = (true, []) →
      m_check_response [ReadEvt.byte 79, ReadEvt.byte 75, ReadEvt.byte 10] =
        (ResponseType.OK, [])) ∧
    m_check_response [ReadEvt.byte 69, ReadEvt.byte 69] =
      (ResponseType.ERROR, [ReadEvt.byte 69]) ∧
    m_check_response [ReadEvt.byte 88, ReadEvt.byte 69] =
      (ResponseType.UNKNOWN, [ReadEvt.byte 69]) ∧
    m_check_response [ReadEvt.byte 255, ReadEvt.byte 69] =
      (ResponseType.TIMEOUT, [ReadEvt.byte 69]) :=
  check_response_classification 13 88 [ReadEvt.byte 69]
    [ReadEvt.byte 75, ReadEvt.byte 10] []
    (by decide) (by decide) (by decide)

end CellularShield

namespace CellularShield

/-- A mismatching byte within the checked name segment makes the name-check
    loop return INVALID_RESPONSE, after consuming the matching prefix and the
    offending byte. -/
lemma checkNameList_mismatch (pre : List Nat) (ch c : Nat) (tl : List Nat)
    (rest : List ReadEvt)
    (hpre : ∀ x ∈ pre, x ≠ 255) (hc : c ≠ 255) (hne : ch ≠ c) :
    checkNameList (pre ++ ch :: tl) (pre.map ReadEvt.byte ++ ReadEvt.byte c :: rest) =
      (some Error.INVALID_RESPONSE, rest) := by
  induction pre with
  | nil =>
    simp only [List.nil_append, List.map_nil, checkNameList, readSerial, m_read_serial]
    simp [hc, hne]
  | cons p pre ih =>
    have hp : p ≠ 255 := hpre p (List.mem_cons_self p pre)
    simp only [List.cons_append, List.map_cons, checkNameList, readSerial, m_read_serial]
    simp only [hp, if_false, ne_eq, not_true_eq_false, if_neg (by simp : ¬p ≠ p)]
    exact ih (fun x hx => hpre x (List.mem_cons_of_mem p hx))

/-- Claim C5: in a structured-reply transaction, a reply byte that differs
    from the corresponding character of the issued command name (the
    characters before the first 61 or 63, within the
    LTE_SHIELD_COMMAND_MAX_LEN window) makes m_send_command return
    INVALID_RESPONSE at once: one transmission, no buffer store, no further
    attempt, whatever the number of tries remaining. -/
theorem send_command_name_mismatch_invalid (cmd pre tl : List Nat)
    (ch c d n : Nat) (s s1 rest : List ReadEvt)
    (hd : 0 < d)
    (hseg : nameToCheck cmd = pre ++ ch :: tl)
    (hpre : ∀ x ∈ pre, x ≠ 255)
    (hc : c ≠ 255) (hne : ch ≠ c)
    (h1 : skipEcho s = (true, s1))
    (h2 : m_check_response s1 =
      (ResponseType.DATA, pre.map ReadEvt.byte ++ ReadEvt.byte c :: rest)) :
    m_send_command cmd true d (n + 1) s =
      ⟨Error.INVALID_RESPONSE, [], [], false, 1, rest⟩ := by
  apply m_send_command_succ_done
  have hcn : checkName cmd (pre.map ReadEvt.byte ++ ReadEvt.byte c :: rest) =
      (some Error.INVALID_RESPONSE, rest) := by
    unfold checkName
    rw [hseg]
    exact checkNameList_mismatch pre ch c tl rest hpre hc hne
  unfold runAttempt
  rw [h1]
  dsimp only
  rw [if_pos ⟨rfl, hd⟩, h2]
  dsimp only
  rw [hcn]

/-- Closed instance of send_command_name_mismatch_invalid: the query +CREG?
    (bytes 43 67 82 69 71 63) answered by a reply that echoes +CS (the device
    echoed a different command name), with 3 tries available. -/
theorem send_command_name_mismatch_invalid_witness :
    m_send_command [43, 67, 82, 69, 71, 63] true 6 3
      [ReadEvt.byte 10, ReadEvt.byte 43, ReadEvt.byte 67, ReadEvt.byte 83] =
      ⟨Error.INVALID_RESPONSE, [], [], false, 1, []⟩ :=
  send_command_name_mismatch_invalid [43, 67, 82, 69, 71, 63] [67] [69, 71]
    82 83 6 2
    [ReadEvt.byte 10, ReadEvt.byte 43, ReadEvt.byte 67, ReadEvt.byte 83]
    [ReadEvt.byte 43, ReadEvt.byte 67, ReadEvt.byte 83] []
    (by decide) (by decide) (by decide) (by decide) (by decide)
    (by rfl) (by rfl)

/-- When the payload line holds at least dest_max plain bytes, the copy loop
    stores the first dest_max - 1 of them at indices 0.. and clips there: the
    NUL terminator goes to index dest_max - 1, the warning is emitted, the
    immediately available remainder of the line is drained, and no error is
    reported. -/
lemma copyResponse_trunc (d : Nat) (hd : 1 ≤ d) :
    ∀ (payload : List Nat) (i : Nat) (tl : List ReadEvt),
      i ≤ d - 1 → d - i ≤ payload.length →
      (∀ b ∈ payload, ¬(b = 10 ∨ b = 13 ∨ b = 255)) →
      copyResponse d i (payload.map ReadEvt.byte ++ tl) =
        ⟨none, (List.range' i (d - 1 - i)).zip (payload.take (d - 1 - i)), some (d - 1),
          true, drainAvail ((payload.drop (d - i)).map ReadEvt.byte ++ tl)⟩ := by
  intro payload
  induction payload with
  | nil =>
    intro i tl h1 h2 _
    exfalso
    simp only [List.length_nil] at h2
    omega
  | cons p ps ih =>
    intro i tl h1 h2 h3
    have hp := h3 p (List.mem_cons_self p ps)
    push_neg at hp
    obtain ⟨hp10, hp13, hp255⟩ := hp
    have h3x : ∀ b ∈ ps, ¬(b = 10 ∨ b = 13 ∨ b = 255) :=
      fun b hb => h3 b (List.mem_cons_of_mem p hb)
    simp only [List.map_cons, List.cons_append, copyResponse, m_read_serial]
    simp only [List.append_eq]
    rw [if_neg hp255, if_neg (by tauto)]
    rcases Nat.lt_or_ge i (d - 1) with hlt | hge
    · rw [if_neg (by omega)]
      have h2x : d - (i + 1) ≤ ps.length := by
        simp only [List.length_cons] at h2
        omega
      rw [ih (i + 1) tl (by omega) h2x h3x]
      have hk : d - 1 - i = (d - 1 - (i + 1)) + 1 := by omega
      have e1 : (List.range' i (d - 1 - i)).zip ((p :: ps).take (d - 1 - i)) =
          (i, p) :: (List.range' (i + 1) (d - 1 - (i + 1))).zip
            (ps.take (d - 1 - (i + 1))) := by
        rw [hk, List.range'_succ, List.take_succ_cons, List.zip_cons_cons]
      have e2 : (p :: ps).drop (d - i) = ps.drop (d - (i + 1)) := by
        have hdi : d - i = (d - (i + 1)) + 1 := by omega
        rw [hdi, List.drop_succ_cons]
      rw [e1, e2]
    · rw [if_pos hge]
      have hi : i = d - 1 := by omega
      subst hi
      have hd1 : d - (d - 1) = 1 := by omega
      rw [hd1]
      simp

/-- Claim C6: a structured-reply transaction whose payload line is at least as
    long as the destination capacity still returns OK when the device then
    sends the OK terminator; the copied text is the first dest_max - 1 payload
    bytes, the NUL terminator is stored at index dest_max - 1, and the
    clipping warning is emitted. -/
theorem send_command_truncation_returns_ok (cmd payload : List Nat) (d n : Nat)
    (s s1 s2 s3 s6 tl : List ReadEvt)
    (hd : 1 ≤ d) (hlong : d ≤ payload.length)
    (hpay : ∀ b ∈ payload, ¬(b = 10 ∨ b = 13 ∨ b = 255))
    (h1 : skipEcho s = (true, s1))
    (h2 : m_check_response s1 = (ResponseType.DATA, s2))
    (h3 : checkName cmd s2 = (none, s3))
    (h4 : skipSeparator s3 = (none, payload.map ReadEvt.byte ++ tl))
    (h6 : m_check_response (drainAvail ((payload.drop d).map ReadEvt.byte ++ tl)) =
      (ResponseType.OK, s6)) :
    m_send_command cmd true d (n + 1) s =
      ⟨Error.OK, (List.range' 0 (d - 1)).zip (payload.take (d - 1)),
        [d - 1], true, 1, s6⟩ := by
  apply m_send_command_succ_done
  unfold runAttempt
  rw [h1]
  dsimp only
  rw [if_pos ⟨rfl, by omega⟩, h2]
  dsimp only
  rw [h3]
  dsimp only
  rw [h4]
  dsimp only
  have hcopy := copyResponse_trunc d hd payload 0 tl (by omega) (by omega) hpay
  simp only [Nat.sub_zero] at hcopy
  rw [hcopy]
  dsimp only
  rw [h6]
  rfl

end CellularShield

namespace CellularShield

/-- Closed instance of send_command_truncation_returns_ok: +CREG? answered by
    a correctly echoed reply with payload bytes 48 44 49 53 into a 3-byte
    buffer, then an OK line: bytes 48 and 44 are stored, the terminator goes
    to index 2, the clip warning fires, and the call returns OK. -/
theorem send_command_truncation_returns_ok_witness :
    m_send_command [43, 67, 82, 69, 71, 63] true 3 1
      [ReadEvt.byte 10, ReadEvt.byte 43, ReadEvt.byte 67, ReadEvt.byte 82,
       ReadEvt.byte 69, ReadEvt.byte 71, ReadEvt.byte 58, ReadEvt.byte 32,
       ReadEvt.byte 48, ReadEvt.byte 44, ReadEvt.byte 49, ReadEvt.byte 53,
       ReadEvt.byte 13, ReadEvt.byte 10, ReadEvt.byte 79, ReadEvt.byte 75,
       ReadEvt.byte 10] =
      ⟨Error.OK, [(0, 48), (1, 44)], [2], true, 1, []⟩ :=
  send_command_truncation_returns_ok [43, 67, 82, 69, 71, 63] [48, 44, 49, 53]
    3 0
    [ReadEvt.byte 10, ReadEvt.byte 43, ReadEvt.byte 67, ReadEvt.byte 82,
     ReadEvt.byte 69, ReadEvt.byte 71, ReadEvt.byte 58, ReadEvt.byte 32,
     ReadEvt.byte 48, ReadEvt.byte 44, ReadEvt.byte 49, ReadEvt.byte 53,
     ReadEvt.byte 13, ReadEvt.byte 10, ReadEvt.byte 79, ReadEvt.byte 75,
     ReadEvt.byte 10]
    [ReadEvt.byte 43, ReadEvt.byte 67, ReadEvt.byte 82,
     ReadEvt.byte 69, ReadEvt.byte 71, ReadEvt.byte 58, ReadEvt.byte 32,
     ReadEvt.byte 48, ReadEvt.byte 44, ReadEvt.byte 49, ReadEvt.byte 53,
     ReadEvt.byte 13, ReadEvt.byte 10, ReadEvt.byte 79, ReadEvt.byte 75,
     ReadEvt.byte 10]
    [ReadEvt.byte 67, ReadEvt.byte 82,
     ReadEvt.byte 69, ReadEvt.byte 71, ReadEvt.byte 58, ReadEvt.byte 32,
     ReadEvt.byte 48, ReadEvt.byte 44, ReadEvt.byte 49, ReadEvt.byte 53,
     ReadEvt.byte 13, ReadEvt.byte 10, ReadEvt.byte 79, ReadEvt.byte 75,
     ReadEvt.byte 10]
    [ReadEvt.byte 58, ReadEvt.byte 32,
     ReadEvt.byte 48, ReadEvt.byte 44, ReadEvt.byte 49, ReadEvt.byte 53,
     ReadEvt.byte 13, ReadEvt.byte 10, ReadEvt.byte 79, ReadEvt.byte 75,
     ReadEvt.byte 10]
    []
    [ReadEvt.byte 13, ReadEvt.byte 10, ReadEvt.byte 79, ReadEvt.byte 75,
     ReadEvt.byte 10]
    (by decide) (by decide) (by decide)
    (by rfl) (by rfl) (by rfl) (by rfl) (by rfl)

/-- When every poll up to the limit succeeds with a status other than
    HOME_NETWORK and ROAMING, the poll loop runs rem more iterations, delays
    once per iteration, and exits with the last polled status. -/
lemma regPollLoopGo_fail (polls : Nat → Error × Nat)
    (hp : ∀ k, k < pollLimit →
      (polls k).1 = Error.OK ∧ (polls k).2 ≠ 49 ∧ (polls k).2 ≠ 53) :
    ∀ rem idx delays, idx + rem < pollLimit →
      regPollLoopGo polls rem idx delays =
        (Sum.inr (polls (idx + rem)).2, delays + rem) := by
  intro rem
  induction rem with
  | zero =>
    intro idx delays h
    obtain ⟨h1, _, _⟩ := hp idx (by omega)
    simp [regPollLoopGo, h1]
  | succ rem ih =>
    intro idx delays h
    obtain ⟨h1, h49, h53⟩ := hp idx (by omega)
    simp only [regPollLoopGo]
    rw [if_neg (by simp [h1]), if_neg (by tauto)]
    rw [ih (idx + 1) (delays + 1) (by omega)]
    rw [show idx + 1 + rem = idx + (rem + 1) from by omega,
        show delays + 1 + rem = delays + (rem + 1) from by omega]

/-- A poll sequence that never reaches HOME_NETWORK or ROAMING within the
    count limit makes the registration check fail with
    LTE_REGISTRATION_FAILED, after pollLimit polls and pollLimit - 1
    delays. -/
lemma m_verify_registration_fail (polls : Nat → Error × Nat)
    (hp : ∀ k, k < pollLimit →
      (polls k).1 = Error.OK ∧ (polls k).2 ≠ 49 ∧ (polls k).2 ≠ 53) :
    m_verify_registration polls = (Error.LTE_REGISTRATION_FAILED, pollLimit - 1) := by
  unfold m_verify_registration
  rw [regPollLoopGo_fail polls hp (pollLimit - 1) 0 0 (by decide)]
  obtain ⟨_, h49, h53⟩ := hp (0 + (pollLimit - 1)) (by decide)
  dsimp only
  rw [if_neg (by tauto)]
  simp

/-- Claim C7: the registration check accepts exactly the HOME_NETWORK and
    ROAMING statuses: on the sequence SEARCHING, SEARCHING, HOME_NETWORK it
    returns OK after exactly 2 of the 500 ms poll delays, and on any sequence
    of successful polls that never reaches those statuses within
    LTE_SHIELD_REGISTER_TIMEOUT / 500 polls it returns
    LTE_REGISTRATION_FAILED at the deadline. -/
theorem verify_registration_polling (polls : Nat → Error × Nat)
    (hp : ∀ k, k < pollLimit →
      (polls k).1 = Error.OK ∧ (polls k).2 ≠ 49 ∧ (polls k).2 ≠ 53) :
    m_verify_registration pollsSearchingTwice = (Error.OK, 2) ∧
    m_verify_registration polls = (Error.LTE_REGISTRATION_FAILED, pollLimit - 1) :=
  ⟨by rfl, m_verify_registration_fail polls hp⟩

/-- Closed instance of verify_registration_polling, with the never-registered
    oracle answering SEARCHING forever. -/
theorem verify_registration_polling_witness :
    m_verify_registration pollsSearchingTwice = (Error.OK, 2) ∧
    m_verify_registration (fun _ => (Error.OK, 50)) =
      (Error.LTE_REGISTRATION_FAILED, pollLimit - 1) :=
  verify_registration_polling (fun _ => (Error.OK, 50)) (by decide)

/-- Every store of the copy loop started at index i with i + 1 ≤ dest_max
    stays in bounds: payload stores at indices between i and dest_max - 2, the
    terminator at an index between i and dest_max - 1. -/
lemma copyResponse_bounds (d : Nat) :
    ∀ (s : List ReadEvt) (i : Nat), i + 1 ≤ d →
      (∀ w ∈ (copyResponse d i s).writes, i ≤ w.1 ∧ w.1 + 2 ≤ d) ∧
      (∀ t, (copyResponse d i s).term = some t → i ≤ t ∧ t + 1 ≤ d) := by
  intro s
  induction s with
  | nil =>
    intro i h
    simp [copyResponse]
  | cons e rest ih =>
    intro i h
    simp only [copyResponse]
    split
    · simp
    · split
      · constructor
        · simp
        · intro t ht
          simp only at ht
          injection ht with ht
          omega
      · split
        · rename_i h255 hnl htr
          constructor
          · simp
          · intro t ht
            simp only at ht
            injection ht with ht
            omega
        · rename_i h255 hnl htr
          constructor
          · intro w hw
            simp only [List.mem_cons] at hw
            rcases hw with hw | hw
            · subst hw
              constructor
              · exact Nat.le_refl i
              · omega
            · have hb := (ih (i + 1) (by omega)).1 w hw
              omega
          · intro t ht
            simp only at ht
            have hb := (ih (i + 1) (by omega)).2 t ht
            omega

end CellularShield

namespace CellularShield

/-- The buffer stores recorded by one attempt are either none at all or
    exactly those of one run of the copy loop started at index 0. -/
lemma runAttempt_writes_shape (command : List Nat) (hasBuf : Bool) (d : Nat)
    (s : List ReadEvt) :
    ((runAttempt command hasBuf d s).2.1 = [] ∧
      (runAttempt command hasBuf d s).2.2.1 = []) ∨
    ∃ u, (runAttempt command hasBuf d s).2.1 = (copyResponse d 0 u).writes ∧
      (runAttempt command hasBuf d s).2.2.1 = (copyResponse d 0 u).term.toList := by
  unfold runAttempt
  dsimp only
  repeat' split
  all_goals first
    | exact Or.inl ⟨rfl, rfl⟩
    | exact Or.inr ⟨_, rfl, rfl⟩

/-- Every buffer store recorded by one attempt is in bounds when dest_max is
    positive: payload stores below dest_max - 1, terminator stores below
    dest_max. -/
lemma runAttempt_bounds (command : List Nat) (hasBuf : Bool) (d : Nat)
    (s : List ReadEvt) (hd : 1 ≤ d) :
    (∀ w ∈ (runAttempt command hasBuf d s).2.1, w.1 + 2 ≤ d) ∧
    (∀ t ∈ (runAttempt command hasBuf d s).2.2.1, t + 1 ≤ d) := by
  rcases runAttempt_writes_shape command hasBuf d s with ⟨hw, ht⟩ | ⟨u, hw, ht⟩
  · rw [hw, ht]
    simp
  · rw [hw, ht]
    have hb := copyResponse_bounds d u 0 (by omega)
    constructor
    · intro w hwm
      exact (hb.1 w hwm).2
    · intro t htm
      rw [Option.mem_toList, Option.mem_def] at htm
      exact (hb.2 t htm).2

/-- Every buffer store recorded by m_send_command is in bounds when dest_max
    is positive, for every number of tries and every event stream. -/
lemma m_send_command_bounds (command : List Nat) (hasBuf : Bool) (d : Nat)
    (hd : 1 ≤ d) :
    ∀ (n : Nat) (s : List ReadEvt),
      (∀ w ∈ (m_send_command command hasBuf d n s).writes, w.1 + 2 ≤ d) ∧
      (∀ t ∈ (m_send_command command hasBuf d n s).terms, t + 1 ≤ d) := by
  intro n
  induction n with
  | zero =>
    intro s
    simp [m_send_command]
  | succ n ih =>
    intro s
    rcases hra : runAttempt command hasBuf d s with ⟨o, ws, ts, wb, s1⟩
    have hb := runAttempt_bounds command hasBuf d s hd
    rw [hra] at hb
    dsimp only at hb
    cases o with
    | retry =>
      rw [m_send_command_succ_retry command hasBuf d n s ws ts wb s1 hra]
      constructor
      · intro w hw
        dsimp only at hw
        rcases List.mem_append.mp hw with hw | hw
        · exact hb.1 w hw
        · exact (ih s1).1 w hw
      · intro t ht
        dsimp only at ht
        rcases List.mem_append.mp ht with ht | ht
        · exact hb.2 t ht
        · exact (ih s1).2 t ht
    | done e =>
      rw [m_send_command_succ_done command hasBuf d n s e ws ts wb s1 hra]
      exact hb

/-- Claim C9: with a response buffer and positive capacity dest_max, every
    payload store of m_send_command lands at an index at most dest_max - 2 and
    every NUL-terminator store at an index at most dest_max - 1, so the
    caller buffer is only written strictly below dest_max, for every device
    byte sequence and every number of tries. -/
theorem send_command_buffer_writes_bounded (command : List Nat) (d n : Nat)
    (s : List ReadEvt) (hd : 1 ≤ d) :
    ((m_send_command command true d n s).writes.all
      fun w => decide (w.1 + 2 ≤ d)) = true ∧
    ((m_send_command command true d n s).terms.all
      fun t => decide (t + 1 ≤ d)) = true := by
  have h := m_send_command_bounds command true d hd n s
  constructor
  · rw [List.all_eq_true]
    intro w hw
    simpa using h.1 w hw
  · rw [List.all_eq_true]
    intro t ht
    simpa using h.2 t ht

/-- Closed instance of send_command_buffer_writes_bounded: a full +CREG?
    transaction with payload bytes 48 44 49 into a 6-byte buffer. -/
theorem send_command_buffer_writes_bounded_witness :
    ((m_send_command [43, 67, 82, 69, 71, 63] true 6 5
      [ReadEvt.byte 10, ReadEvt.byte 43, ReadEvt.byte 67, ReadEvt.byte 82,
       ReadEvt.byte 69, ReadEvt.byte 71, ReadEvt.byte 58, ReadEvt.byte 32,
       ReadEvt.byte 48, ReadEvt.byte 44, ReadEvt.byte 49, ReadEvt.byte 10,
       ReadEvt.byte 79, ReadEvt.byte 75, ReadEvt.byte 10]).writes.all
      fun w => decide (w.1 + 2 ≤ 6)) = true ∧
    ((m_send_command [43, 67, 82, 69, 71, 63] true 6 5
      [ReadEvt.byte 10, ReadEvt.byte 43, ReadEvt.byte 67, ReadEvt.byte 82,
       ReadEvt.byte 69, ReadEvt.byte 71, ReadEvt.byte 58, ReadEvt.byte 32,
       ReadEvt.byte 48, ReadEvt.byte 44, ReadEvt.byte 49, ReadEvt.byte 10,
       ReadEvt.byte 79, ReadEvt.byte 75, ReadEvt.byte 10]).terms.all
      fun t => decide (t + 1 ≤ 6)) = true :=
  send_command_buffer_writes_bounded [43, 67, 82, 69, 71, 63] 6 5
    [ReadEvt.byte 10, ReadEvt.byte 43, ReadEvt.byte 67, ReadEvt.byte 82,
     ReadEvt.byte 69, ReadEvt.byte 71, ReadEvt.byte 58, ReadEvt.byte 32,
     ReadEvt.byte 48, ReadEvt.byte 44, ReadEvt.byte 49, ReadEvt.byte 10,
     ReadEvt.byte 79, ReadEvt.byte 75, ReadEvt.byte 10]
    (by decide)

end CellularShield
